import Mathlib

/-!
Verification of the deal lifecycle state machines of go-fil-markets.

The definitions below are shallow embeddings of the Go source:
* `retrievalmarket/impl/clientstates/client_fsm.go` (retrieval client FSM),
* `storagemarket/impl/providerstates/provider_states.go` (storage provider
  state handlers).

Machine integers are embedded as `Nat` with explicit `% 2^64` where Go's
`uint64` arithmetic wraps; chain token amounts (`big.Int`) are embedded as
`Int`; Go's Euclidean `big.Div` is `Int.ediv`; fallible Go code becomes
`Option`.
-/

namespace FilMarkets

/-- 2^64: modulus of Go's uint64 arithmetic. -/
def U64 : Nat := 18446744073709551616

/-- Go `math/big` `Int.Uint64`: returns the low 64 bits of the absolute
value (the documented behaviour for values outside `[0, 2^64)` is
"undefined"; the actual implementation returns the low word of the
magnitude, which this models). -/
def goUint64 (x : Int) : Nat := x.natAbs % U64

/-! ## Retrieval client: deal state and events (client_fsm.go) -/

/-- Retrieval deal statuses referenced by the client FSM
(`rm.DealStatus*`). -/
inductive DealStatus where
  | New
  | WaitForAcceptance
  | WaitForAcceptanceLegacy
  | RetryLegacy
  | Accepted
  | PaymentChannelCreating
  | PaymentChannelAllocatingLane
  | PaymentChannelAddingFunds
  | Ongoing
  | FundsNeeded
  | FundsNeededLastPayment
  | SendFunds
  | SendFundsLastPayment
  | BlocksComplete
  | Finalizing
  | CheckComplete
  | CheckFunds
  | InsufficientFunds
  | Failing
  | Cancelling
  | Errored
  | Completed
  | Cancelled
  | Rejected
  | DealNotFound
  deriving DecidableEq, Repr

/-- `rm.ClientDealState`: the Params fields (`PricePerByte`,
`PaymentInterval`, `PaymentIntervalIncrease`, `UnsealPrice`) are reachable
directly on the deal through Go struct embedding of the deal proposal, so
they are flattened here. CIDs, addresses and channel ids are opaque and
embedded as `Nat`; `PaymentInfo` is the optional pair (PayCh, Lane). -/
structure ClientDealState where
  PricePerByte : Int
  PaymentInterval : Nat
  PaymentIntervalIncrease : Nat
  UnsealPrice : Int
  Status : DealStatus
  Message : String
  PaymentRequested : Int
  FundsSpent : Int
  UnsealFundsPaid : Int
  BytesPaidFor : Nat
  CurrentInterval : Nat
  TotalReceived : Nat
  AllBlocksReceived : Bool
  LastPaymentRequested : Bool
  LegacyProtocol : Bool
  ChannelID : Nat
  PaymentInfo : Option (Nat × Nat)
  WaitMsgCID : Option Nat
  deriving DecidableEq, Repr

/-- The `rm.ClientEventPaymentSent` action (client_fsm.go:230-248).
`big.Div` is Go Euclidean division and panics on a zero divisor, hence the
`Option`; `.Uint64()` is `goUint64`; the `uint64` fields `CurrentInterval`
and `BytesPaidFor` wrap modulo 2^64. -/
def paymentSentAction (deal : ClientDealState) : Option ClientDealState :=
  if deal.PricePerByte = 0 then none
  else
    let fundsSpent := deal.FundsSpent + deal.PaymentRequested
    let paymentForUnsealing :=
      min deal.PaymentRequested (deal.UnsealPrice - deal.UnsealFundsPaid)
    let bytesPaidFor :=
      goUint64 ((deal.PaymentRequested - paymentForUnsealing).ediv deal.PricePerByte)
    let currentInterval :=
      if bytesPaidFor ≥ deal.CurrentInterval then
        (deal.CurrentInterval + deal.PaymentIntervalIncrease) % U64
      else deal.CurrentInterval
    some { deal with FundsSpent := fundsSpent, CurrentInterval := currentInterval, BytesPaidFor := (deal.BytesPaidFor + bytesPaidFor) % U64, UnsealFundsPaid := deal.UnsealFundsPaid + paymentForUnsealing, PaymentRequested := 0 }

/-- The events of `ClientEvents` (client_fsm.go:32-290), with their
arguments; Go `error` arguments are carried as their message strings. -/
inductive ClientEvent where
  | Open
  | WriteDealProposalErrored (err : String)
  | DealProposed (channelID : Nat)
  | DealRejected (message : String)
  | DealNotFound (message : String)
  | DealAccepted
  | UnknownResponseReceived (status : DealStatus)
  | PaymentChannelErrored (err : String)
  | PaymentChannelCreateInitiated (msgCID : Nat)
  | PaymentChannelAddingFunds (msgCID : Nat) (payCh : Nat)
  | PaymentChannelReady (payCh : Nat)
  | AllocateLaneErrored (err : String)
  | LaneAllocated (lane : Nat)
  | DataTransferError (err : String)
  | LastPaymentRequested (paymentOwed : Int)
  | PaymentRequested (paymentOwed : Int)
  | UnsealPaymentRequested (paymentOwed : Int)
  | AllBlocksReceived
  | BlocksReceived (totalReceived : Nat)
  | SendFunds
  | FundsExpended (shortfall : Int)
  | BadPaymentRequested (message : String)
  | CreateVoucherFailed (err : String)
  | VoucherShortfall (shortfall : Int)
  | WriteDealPaymentErrored (err : String)
  | PaymentSent
  | Complete
  | CompleteVerified
  | EarlyTermination
  | CancelComplete
  | ProviderCancelled
  | Cancel
  | RecheckFunds
  deriving DecidableEq, Repr

/-- Modelled from the spec: the human-readable status names
(`rm.DealStatuses`, used only in the `UnknownResponseReceived` message;
the table itself is not under src/). -/
def dealStatusName (s : DealStatus) : String :=
  (reprStr s).dropWhile (fun c => c ≠ '.') |>.replace "." ""

/-- `paymentChannelCreationStates` (client_fsm.go:23-29). -/
def paymentChannelCreationStates : List DealStatus :=
  [.WaitForAcceptance, .WaitForAcceptanceLegacy, .Accepted,
   .PaymentChannelCreating, .PaymentChannelAllocatingLane]

/-- One event of `ClientEvents` applied to a deal record: the clause of
the event whose `From` matches the current status wins (specific clauses
before `FromAny`), its action mutates the record, and `To(s')` sets the
status (`ToNoChange` / `ToJustRecord` leave it); an event with no matching
clause is dropped (spec section 4.1), leaving the record unchanged.
`none` models a Go panic inside the action. -/
def applyClientEvent (deal : ClientDealState) (e : ClientEvent) : Option ClientDealState :=
  match e with
  | .Open => some deal
  | .WriteDealProposalErrored err =>
      some { deal with Message := "proposing deal: " ++ err, Status := .Errored }
  | .DealProposed channelID =>
      match deal.Status with
      | .New => some { deal with ChannelID := channelID, Message := "", Status := .WaitForAcceptance }
      | .RetryLegacy => some { deal with ChannelID := channelID, Message := "", Status := .WaitForAcceptanceLegacy }
      | _ => some deal
  | .DealRejected message =>
      match deal.Status with
      | .WaitForAcceptance =>
          some { deal with Message := "deal rejected: " ++ message, LegacyProtocol := true, Status := .RetryLegacy }
      | .WaitForAcceptanceLegacy =>
          some { deal with Message := "deal rejected: " ++ message, LegacyProtocol := true, Status := .Rejected }
      | _ => some deal
  | .DealNotFound message =>
      match deal.Status with
      | .WaitForAcceptance | .WaitForAcceptanceLegacy =>
          some { deal with Message := "deal not found: " ++ message, Status := .DealNotFound }
      | _ => some deal
  | .DealAccepted =>
      match deal.Status with
      | .WaitForAcceptance | .WaitForAcceptanceLegacy =>
          some { deal with Status := .Accepted }
      | _ => some deal
  | .UnknownResponseReceived status =>
      some { deal with Message := "Unexpected deal response status: " ++ dealStatusName status, Status := .Failing }
  | .PaymentChannelErrored err =>
      match deal.Status with
      | .Accepted | .PaymentChannelCreating | .PaymentChannelAddingFunds =>
          some { deal with Message := "error from payment channel: " ++ err, Status := .Failing }
      | _ => some deal
  | .PaymentChannelCreateInitiated msgCID =>
      match deal.Status with
      | .Accepted => some { deal with WaitMsgCID := some msgCID, Status := .PaymentChannelCreating }
      | _ => some deal
  | .PaymentChannelAddingFunds msgCID payCh =>
      let act := fun (d : ClientDealState) =>
        { d with WaitMsgCID := some msgCID, PaymentInfo := (match d.PaymentInfo with | none => some (payCh, 0) | some pi => some pi) }
      match deal.Status with
      | .Accepted => some { act deal with Status := .PaymentChannelAllocatingLane }
      | .CheckFunds => some { act deal with Status := .PaymentChannelAddingFunds }
      | _ => some deal
  | .PaymentChannelReady payCh =>
      let act := fun (d : ClientDealState) =>
        { d with PaymentInfo := (match d.PaymentInfo with | none => some (payCh, 0) | some pi => some pi), WaitMsgCID := none, Message := "" }
      match deal.Status with
      | .PaymentChannelCreating =>
          some { act deal with Status := .PaymentChannelAllocatingLane }
      | .PaymentChannelAddingFunds => some { act deal with Status := .Ongoing }
      | .CheckFunds => some { act deal with Status := .Ongoing }
      | _ => some deal
  | .AllocateLaneErrored err =>
      match deal.Status with
      | .PaymentChannelAllocatingLane =>
          some { deal with Message := "allocating payment lane: " ++ err, Status := .Failing }
      | _ => some deal
  | .LaneAllocated lane =>
      match deal.Status with
      | .PaymentChannelAllocatingLane =>
          -- `deal.PaymentInfo.Lane = lane` dereferences the pointer: nil panics
          match deal.PaymentInfo with
          | none => none
          | some (payCh, _) =>
              some { deal with PaymentInfo := some (payCh, lane), Status := .Ongoing }
      | _ => some deal
  | .DataTransferError err =>
      some { deal with Message := "error generated by data transfer: " ++ err, Status := .Errored }
  | .LastPaymentRequested paymentOwed =>
      let act := fun (d : ClientDealState) =>
        { d with PaymentRequested := d.PaymentRequested + paymentOwed, LastPaymentRequested := true }
      match deal.Status with
      | .Ongoing | .FundsNeededLastPayment | .FundsNeeded =>
          some { act deal with Status := .FundsNeededLastPayment }
      | .BlocksComplete => some { act deal with Status := .SendFundsLastPayment }
      | .WaitForAcceptance | .WaitForAcceptanceLegacy | .Accepted
      | .PaymentChannelCreating | .PaymentChannelAllocatingLane =>
          some (act deal)
      | _ => some deal
  | .PaymentRequested paymentOwed =>
      let act := fun (d : ClientDealState) =>
        { d with PaymentRequested := d.PaymentRequested + paymentOwed }
      match deal.Status with
      | .Ongoing | .BlocksComplete | .FundsNeeded =>
          some { act deal with Status := .FundsNeeded }
      | .WaitForAcceptance | .WaitForAcceptanceLegacy | .Accepted
      | .PaymentChannelCreating | .PaymentChannelAllocatingLane =>
          some (act deal)
      | _ => some deal
  | .UnsealPaymentRequested paymentOwed =>
      match deal.Status with
      | .WaitForAcceptance | .WaitForAcceptanceLegacy =>
          some { deal with PaymentRequested := deal.PaymentRequested + paymentOwed, Status := .Accepted }
      | _ => some deal
  | .AllBlocksReceived =>
      let act := fun (d : ClientDealState) => { d with AllBlocksReceived := true }
      match deal.Status with
      | .Ongoing | .BlocksComplete => some { act deal with Status := .BlocksComplete }
      | .WaitForAcceptance | .WaitForAcceptanceLegacy | .Accepted
      | .PaymentChannelCreating | .PaymentChannelAllocatingLane
      | .SendFunds | .FundsNeeded => some (act deal)
      | .FundsNeededLastPayment => some { act deal with Status := .SendFundsLastPayment }
      | _ => some deal
  | .BlocksReceived totalReceived =>
      match deal.Status with
      | .Ongoing | .FundsNeeded | .FundsNeededLastPayment
      | .WaitForAcceptance | .WaitForAcceptanceLegacy | .Accepted
      | .PaymentChannelCreating | .PaymentChannelAllocatingLane =>
          some { deal with TotalReceived := totalReceived }
      | _ => some deal
  | .SendFunds =>
      match deal.Status with
      | .FundsNeeded => some { deal with Status := .SendFunds }
      | .FundsNeededLastPayment => some { deal with Status := .SendFundsLastPayment }
      | _ => some deal
  | .FundsExpended shortfall =>
      match deal.Status with
      | .CheckFunds =>
          some { deal with Message := "not enough current or pending funds in payment channel, shortfall of " ++ toString shortfall, Status := .InsufficientFunds }
      | _ => some deal
  | .BadPaymentRequested message =>
      match deal.Status with
      | .SendFunds | .SendFundsLastPayment =>
          some { deal with Message := message, Status := .Failing }
      | _ => some deal
  | .CreateVoucherFailed err =>
      match deal.Status with
      | .SendFunds | .SendFundsLastPayment =>
          some { deal with Message := "creating payment voucher: " ++ err, Status := .Failing }
      | _ => some deal
  | .VoucherShortfall _ =>
      match deal.Status with
      | .SendFunds | .SendFundsLastPayment => some { deal with Status := .CheckFunds }
      | _ => some deal
  | .WriteDealPaymentErrored err =>
      some { deal with Message := "writing deal payment: " ++ err, Status := .Errored }
  | .PaymentSent =>
      match deal.Status with
      | .SendFunds =>
          (paymentSentAction deal).map fun d => { d with Status := .Ongoing }
      | .SendFundsLastPayment =>
          (paymentSentAction deal).map fun d => { d with Status := .Finalizing }
      | _ => some deal
  | .Complete =>
      match deal.Status with
      | .Ongoing => some { deal with Status := .CheckComplete }
      | .Finalizing => some { deal with Status := .Completed }
      | _ => some deal
  | .CompleteVerified =>
      match deal.Status with
      | .CheckComplete => some { deal with Status := .Completed }
      | _ => some deal
  | .EarlyTermination =>
      match deal.Status with
      | .CheckComplete =>
          some { deal with Message := "Provider sent complete status without sending all data", Status := .Errored }
      | _ => some deal
  | .CancelComplete =>
      match deal.Status with
      | .Failing => some { deal with Status := .Errored }
      | .Cancelling => some { deal with Status := .Cancelled }
      | _ => some deal
  | .ProviderCancelled =>
      -- action sets the message only when not already Failing/Cancelling
      match deal.Status with
      | .Failing => some deal
      | .Cancelling => some deal
      | _ => some { deal with Message := "Provider cancelled retrieval due to error", Status := .Errored }
  | .Cancel =>
      some { deal with Message := "Retrieval Cancelled", Status := .Cancelling }
  | .RecheckFunds =>
      match deal.Status with
      | .InsufficientFunds => some { deal with Status := .CheckFunds }
      | _ => some deal

/-- `ClientFinalityStates` (client_fsm.go:293-299). -/
def ClientFinalityStates : List DealStatus :=
  [.Errored, .Completed, .Cancelled, .Rejected, .DealNotFound]

/-- One engine step of the retrieval client machine. Modelled from the
spec for the part outside src/: the state-machine engine (go-statemachine)
accepts no event once the deal is in a finality state (spec sections 4.1
and Glossary "Finality state"); otherwise the event is dispatched against
the `ClientEvents` transition table. -/
def clientStep (deal : ClientDealState) (e : ClientEvent) : Option ClientDealState :=
  if deal.Status ∈ ClientFinalityStates then some deal
  else applyClientEvent deal e

/-! ## Retrieval client theorems -/

/-- C10: the `ClientEventPaymentSent` action divides
`PaymentRequested − paymentForUnsealing` by `PricePerByte` with no guard:
it is total exactly when `PricePerByte ≠ 0`, and for every deal state with
`PricePerByte = 0` (a free retrieval) the division is undefined
(`big.Div` panics), modelled by `none`. -/
theorem paymentSent_total_iff_pricePerByte_ne_zero (d : ClientDealState) :
    paymentSentAction d = none ↔ d.PricePerByte = 0 := by
  unfold paymentSentAction
  split <;> simp_all

/-- C1: for every client deal state with `PricePerByte > 0` (and the
well-formedness of a real deal record: `PaymentRequested ≥ 0` and no
`uint64` overflow in the byte counters), the `ClientEventPaymentSent`
action performs exactly the five ratchet steps of the spec:
`FundsSpent += PaymentRequested`;
`paymentForUnsealing = min(PaymentRequested, UnsealPrice − UnsealFundsPaid)`;
`bytesPaidFor = ⌊(PaymentRequested − paymentForUnsealing) / PricePerByte⌋`;
`CurrentInterval += PaymentIntervalIncrease` exactly when
`bytesPaidFor ≥ CurrentInterval`; `BytesPaidFor += bytesPaidFor`;
`UnsealFundsPaid += paymentForUnsealing`; `PaymentRequested = 0`. -/
theorem paymentSent_ratchet (d : ClientDealState)
    (hp : 0 < d.PricePerByte) (hr : 0 ≤ d.PaymentRequested)
    (hq : (d.PaymentRequested - min d.PaymentRequested (d.UnsealPrice - d.UnsealFundsPaid)).ediv d.PricePerByte < (U64 : Int))
    (hb : d.BytesPaidFor + ((d.PaymentRequested - min d.PaymentRequested (d.UnsealPrice - d.UnsealFundsPaid)).ediv d.PricePerByte).toNat < U64)
    (hc : d.CurrentInterval + d.PaymentIntervalIncrease < U64) :
    ∃ d', paymentSentAction d = some d' ∧
      d'.FundsSpent = d.FundsSpent + d.PaymentRequested ∧
      d'.UnsealFundsPaid = d.UnsealFundsPaid + min d.PaymentRequested (d.UnsealPrice - d.UnsealFundsPaid) ∧
      d'.BytesPaidFor = d.BytesPaidFor + ((d.PaymentRequested - min d.PaymentRequested (d.UnsealPrice - d.UnsealFundsPaid)).ediv d.PricePerByte).toNat ∧
      d'.CurrentInterval = (if d.CurrentInterval ≤ ((d.PaymentRequested - min d.PaymentRequested (d.UnsealPrice - d.UnsealFundsPaid)).ediv d.PricePerByte).toNat
        then d.CurrentInterval + d.PaymentIntervalIncrease else d.CurrentInterval) ∧
      d'.PaymentRequested = 0 := by
  have hne : ¬ d.PricePerByte = 0 := by omega
  have hnum : (0:Int) ≤ d.PaymentRequested - min d.PaymentRequested (d.UnsealPrice - d.UnsealFundsPaid) := by
    have h1 := min_le_left d.PaymentRequested (d.UnsealPrice - d.UnsealFundsPaid)
    omega
  have hq0 : (0:Int) ≤ (d.PaymentRequested - min d.PaymentRequested (d.UnsealPrice - d.UnsealFundsPaid)).ediv d.PricePerByte :=
    Int.ediv_nonneg hnum hp.le
  have habs : goUint64 ((d.PaymentRequested - min d.PaymentRequested (d.UnsealPrice - d.UnsealFundsPaid)).ediv d.PricePerByte)
      = ((d.PaymentRequested - min d.PaymentRequested (d.UnsealPrice - d.UnsealFundsPaid)).ediv d.PricePerByte).toNat := by
    unfold goUint64
    have h2 : ((d.PaymentRequested - min d.PaymentRequested (d.UnsealPrice - d.UnsealFundsPaid)).ediv d.PricePerByte).natAbs
        = ((d.PaymentRequested - min d.PaymentRequested (d.UnsealPrice - d.UnsealFundsPaid)).ediv d.PricePerByte).toNat := by
      omega
    rw [h2, Nat.mod_eq_of_lt (by omega)]
  have hstep : paymentSentAction d = some { d with
      FundsSpent := d.FundsSpent + d.PaymentRequested,
      CurrentInterval := (if goUint64 ((d.PaymentRequested - min d.PaymentRequested (d.UnsealPrice - d.UnsealFundsPaid)).ediv d.PricePerByte) ≥ d.CurrentInterval then (d.CurrentInterval + d.PaymentIntervalIncrease) % U64 else d.CurrentInterval),
      BytesPaidFor := (d.BytesPaidFor + goUint64 ((d.PaymentRequested - min d.PaymentRequested (d.UnsealPrice - d.UnsealFundsPaid)).ediv d.PricePerByte)) % U64,
      UnsealFundsPaid := d.UnsealFundsPaid + min d.PaymentRequested (d.UnsealPrice - d.UnsealFundsPaid),
      PaymentRequested := 0 } := by
    simp only [paymentSentAction, if_neg hne]
  refine ⟨_, hstep, rfl, rfl, ?_, ?_, rfl⟩
  · show (d.BytesPaidFor + goUint64 ((d.PaymentRequested - min d.PaymentRequested (d.UnsealPrice - d.UnsealFundsPaid)).ediv d.PricePerByte)) % U64
      = d.BytesPaidFor + ((d.PaymentRequested - min d.PaymentRequested (d.UnsealPrice - d.UnsealFundsPaid)).ediv d.PricePerByte).toNat
    rw [habs, Nat.mod_eq_of_lt hb]
  · show (if goUint64 ((d.PaymentRequested - min d.PaymentRequested (d.UnsealPrice - d.UnsealFundsPaid)).ediv d.PricePerByte) ≥ d.CurrentInterval then (d.CurrentInterval + d.PaymentIntervalIncrease) % U64 else d.CurrentInterval)
      = (if d.CurrentInterval ≤ ((d.PaymentRequested - min d.PaymentRequested (d.UnsealPrice - d.UnsealFundsPaid)).ediv d.PricePerByte).toNat then d.CurrentInterval + d.PaymentIntervalIncrease else d.CurrentInterval)
    rw [habs]
    simp only [ge_iff_le]
    rw [Nat.mod_eq_of_lt hc]

/-- C4: the `ClientEventPaymentSent` action preserves the deal-state
invariants: from `PaymentRequested ≥ 0`, `PricePerByte > 0` and
`UnsealFundsPaid ≤ UnsealPrice` (with no `uint64` overflow of the payment
interval), afterwards `UnsealFundsPaid ≤ UnsealPrice` still holds,
`CurrentInterval` is unchanged or increased by exactly
`PaymentIntervalIncrease`, and the action adds exactly the payment just
recorded to `FundsSpent`. -/
theorem paymentSent_invariants (d : ClientDealState)
    (hr : 0 ≤ d.PaymentRequested) (hp : 0 < d.PricePerByte)
    (hu : d.UnsealFundsPaid ≤ d.UnsealPrice)
    (hc : d.CurrentInterval + d.PaymentIntervalIncrease < U64) :
    ∃ d', paymentSentAction d = some d' ∧
      d'.UnsealFundsPaid ≤ d'.UnsealPrice ∧
      (d'.CurrentInterval = d.CurrentInterval ∨
        d'.CurrentInterval = d.CurrentInterval + d.PaymentIntervalIncrease) ∧
      d'.FundsSpent = d.FundsSpent + d.PaymentRequested := by
  have hne : ¬ d.PricePerByte = 0 := by omega
  have hstep : paymentSentAction d = some { d with
      FundsSpent := d.FundsSpent + d.PaymentRequested,
      CurrentInterval := (if goUint64 ((d.PaymentRequested - min d.PaymentRequested (d.UnsealPrice - d.UnsealFundsPaid)).ediv d.PricePerByte) ≥ d.CurrentInterval then (d.CurrentInterval + d.PaymentIntervalIncrease) % U64 else d.CurrentInterval),
      BytesPaidFor := (d.BytesPaidFor + goUint64 ((d.PaymentRequested - min d.PaymentRequested (d.UnsealPrice - d.UnsealFundsPaid)).ediv d.PricePerByte)) % U64,
      UnsealFundsPaid := d.UnsealFundsPaid + min d.PaymentRequested (d.UnsealPrice - d.UnsealFundsPaid),
      PaymentRequested := 0 } := by
    simp only [paymentSentAction, if_neg hne]
  refine ⟨_, hstep, ?_, ?_, rfl⟩
  · show d.UnsealFundsPaid + min d.PaymentRequested (d.UnsealPrice - d.UnsealFundsPaid) ≤ d.UnsealPrice
    have h1 := min_le_right d.PaymentRequested (d.UnsealPrice - d.UnsealFundsPaid)
    omega
  · show (if goUint64 ((d.PaymentRequested - min d.PaymentRequested (d.UnsealPrice - d.UnsealFundsPaid)).ediv d.PricePerByte) ≥ d.CurrentInterval then (d.CurrentInterval + d.PaymentIntervalIncrease) % U64 else d.CurrentInterval) = d.CurrentInterval
      ∨ (if goUint64 ((d.PaymentRequested - min d.PaymentRequested (d.UnsealPrice - d.UnsealFundsPaid)).ediv d.PricePerByte) ≥ d.CurrentInterval then (d.CurrentInterval + d.PaymentIntervalIncrease) % U64 else d.CurrentInterval) = d.CurrentInterval + d.PaymentIntervalIncrease
    split
    · right
      exact Nat.mod_eq_of_lt hc
    · left; rfl

/-- The payment-ratchet example of the spec (scenario 4): first voucher of
10 136 000 with PaymentInterval = 10 000, PaymentIntervalIncrease = 1 000,
PricePerByte = 1 000, UnsealPrice = 5 000. -/
def ratchetExampleDeal : ClientDealState where
  PricePerByte := 1000
  PaymentInterval := 10000
  PaymentIntervalIncrease := 1000
  UnsealPrice := 5000
  Status := .SendFunds
  Message := ""
  PaymentRequested := 10136000
  FundsSpent := 0
  UnsealFundsPaid := 0
  BytesPaidFor := 0
  CurrentInterval := 10000
  TotalReceived := 0
  AllBlocksReceived := false
  LastPaymentRequested := false
  LegacyProtocol := false
  ChannelID := 0
  PaymentInfo := none
  WaitMsgCID := none

/-- C1 witness: the ratchet theorem applied at the spec's concrete input,
together with the concrete post-state `UnsealFundsPaid = 5000`,
`BytesPaidFor = 10131`, `CurrentInterval = 11000`,
`FundsSpent = 10136000`. -/
theorem paymentSent_ratchet_witness :
    (∃ d', paymentSentAction ratchetExampleDeal = some d' ∧
      d'.FundsSpent = ratchetExampleDeal.FundsSpent + ratchetExampleDeal.PaymentRequested ∧
      d'.UnsealFundsPaid = ratchetExampleDeal.UnsealFundsPaid + min ratchetExampleDeal.PaymentRequested (ratchetExampleDeal.UnsealPrice - ratchetExampleDeal.UnsealFundsPaid) ∧
      d'.BytesPaidFor = ratchetExampleDeal.BytesPaidFor + ((ratchetExampleDeal.PaymentRequested - min ratchetExampleDeal.PaymentRequested (ratchetExampleDeal.UnsealPrice - ratchetExampleDeal.UnsealFundsPaid)).ediv ratchetExampleDeal.PricePerByte).toNat ∧
      d'.CurrentInterval = (if ratchetExampleDeal.CurrentInterval ≤ ((ratchetExampleDeal.PaymentRequested - min ratchetExampleDeal.PaymentRequested (ratchetExampleDeal.UnsealPrice - ratchetExampleDeal.UnsealFundsPaid)).ediv ratchetExampleDeal.PricePerByte).toNat
        then ratchetExampleDeal.CurrentInterval + ratchetExampleDeal.PaymentIntervalIncrease else ratchetExampleDeal.CurrentInterval) ∧
      d'.PaymentRequested = 0) ∧
    paymentSentAction ratchetExampleDeal = some { ratchetExampleDeal with
      FundsSpent := 10136000, UnsealFundsPaid := 5000, BytesPaidFor := 10131, CurrentInterval := 11000, PaymentRequested := 0 } :=
  ⟨paymentSent_ratchet ratchetExampleDeal (by decide) (by decide) (by decide) (by decide) (by decide),
   by decide⟩

/-- C4 witness: the invariant-preservation theorem applied at the spec's
concrete ratchet example. -/
theorem paymentSent_invariants_witness :
    ∃ d', paymentSentAction ratchetExampleDeal = some d' ∧
      d'.UnsealFundsPaid ≤ d'.UnsealPrice ∧
      (d'.CurrentInterval = ratchetExampleDeal.CurrentInterval ∨
        d'.CurrentInterval = ratchetExampleDeal.CurrentInterval + ratchetExampleDeal.PaymentIntervalIncrease) ∧
      d'.FundsSpent = ratchetExampleDeal.FundsSpent + ratchetExampleDeal.PaymentRequested :=
  paymentSent_invariants ratchetExampleDeal (by decide) (by decide) (by decide) (by decide)

/-- C5: the finality states (Errored, Completed, Cancelled, Rejected,
DealNotFound) are absorbing — no event of `ClientEvents` applied in a
finality state changes the deal (in particular its `Status`) — and
`ClientEventCancel` applied in any non-finality state moves the deal to
`Cancelling` with `Message = "Retrieval Cancelled"`. -/
theorem clientFinality_absorbing_and_cancel (d : ClientDealState) (e : ClientEvent) :
    (d.Status ∈ ClientFinalityStates → clientStep d e = some d) ∧
    (d.Status ∉ ClientFinalityStates →
      ∃ d', clientStep d .Cancel = some d' ∧ d'.Status = .Cancelling ∧
        d'.Message = "Retrieval Cancelled") := by
  constructor
  · intro h
    simp [clientStep, h]
  · intro h
    refine ⟨{ d with Message := "Retrieval Cancelled", Status := .Cancelling }, ?_, rfl, rfl⟩
    simp [clientStep, h, applyClientEvent]

/-- A representative in-progress retrieval deal. -/
def sampleDeal : ClientDealState :=
  { ratchetExampleDeal with Status := .Ongoing }

/-- C5 witness: a `Completed` deal absorbs `ClientEventCancel`, and an
`Ongoing` deal moves to `Cancelling` with the cancellation message. -/
theorem clientFinality_absorbing_and_cancel_witness :
    clientStep { sampleDeal with Status := .Completed } .Cancel = some { sampleDeal with Status := .Completed } ∧
    (∃ d', clientStep sampleDeal .Cancel = some d' ∧ d'.Status = .Cancelling ∧
      d'.Message = "Retrieval Cancelled") :=
  ⟨(clientFinality_absorbing_and_cancel { sampleDeal with Status := .Completed } .Cancel).1 (by decide),
   (clientFinality_absorbing_and_cancel sampleDeal .Cancel).2 (by decide)⟩

/-- C6: from `DealStatusCheckComplete`, `ClientEventEarlyTermination`
moves the deal to `DealStatusErrored` with
`Message = "Provider sent complete status without sending all data"`, and
`ClientEventCompleteVerified` moves it to `DealStatusCompleted`. -/
theorem checkComplete_events (d : ClientDealState) (h : d.Status = .CheckComplete) :
    (∃ d', clientStep d .EarlyTermination = some d' ∧ d'.Status = .Errored ∧
      d'.Message = "Provider sent complete status without sending all data") ∧
    (∃ d', clientStep d .CompleteVerified = some d' ∧ d'.Status = .Completed) := by
  constructor
  · refine ⟨{ d with Message := "Provider sent complete status without sending all data", Status := .Errored }, ?_, rfl, rfl⟩
    simp [clientStep, applyClientEvent, h, ClientFinalityStates]
  · refine ⟨{ d with Status := .Completed }, ?_, rfl⟩
    simp [clientStep, applyClientEvent, h, ClientFinalityStates]

/-- C6 witness: the `CheckComplete` theorem at a concrete deal. -/
theorem checkComplete_events_witness :
    (∃ d', clientStep { sampleDeal with Status := .CheckComplete } .EarlyTermination = some d' ∧
      d'.Status = .Errored ∧
      d'.Message = "Provider sent complete status without sending all data") ∧
    (∃ d', clientStep { sampleDeal with Status := .CheckComplete } .CompleteVerified = some d' ∧
      d'.Status = .Completed) :=
  checkComplete_events { sampleDeal with Status := .CheckComplete } rfl

/-! ## Storage provider: deal proposal validation (provider_states.go) -/

/-- Opaque content identifier: `defined` is Go `cid.Defined()` and `pfx`
an opaque tag standing for the typed CID prefix (equality is bytewise). -/
structure Cid where
  defined : Bool
  pfx : Nat
  deriving DecidableEq, Repr

/-- Opaque tag standing for the protocol's piece-cid prefix
(`market.PieceCIDPrefix`). -/
def pieceCidTag : Nat := 1

/-- `const DealMaxLabelSize = 256` (provider_states.go:37). -/
def DealMaxLabelSize : Nat := 256

/-- `storagemarket.StorageAsk`: the fields consulted by validation. -/
structure StorageAsk where
  Price : Int
  VerifiedPrice : Int
  MinPieceSize : Nat
  MaxPieceSize : Nat
  deriving DecidableEq, Repr

/-- `market.DealProposal` (specs-actors), the fields consulted by
`ValidateDealProposal`. Addresses are opaque `Nat`s; `Label` is kept as
its byte list so that Go `len(Label)` is `Label.length`. -/
structure DealProposal where
  PieceCID : Cid
  PieceSize : Nat
  VerifiedDeal : Bool
  Client : Nat
  Provider : Nat
  Label : List Nat
  StartEpoch : Int
  EndEpoch : Int
  StoragePricePerEpoch : Int
  ProviderCollateral : Int
  ClientCollateral : Int
  deriving DecidableEq, Repr

/-- `proposal.Duration() = EndEpoch - StartEpoch` (specs-actors). -/
def DealProposal.Duration (p : DealProposal) : Int := p.EndEpoch - p.StartEpoch

/-- `proposal.ClientBalanceRequirement()` (specs-actors):
`ClientCollateral + StoragePricePerEpoch · Duration`. -/
def DealProposal.ClientBalanceRequirement (p : DealProposal) : Int :=
  p.ClientCollateral + p.StoragePricePerEpoch * p.Duration

/-- The external collaborators consulted by `ValidateDealProposal`, fixed
to the values they return during one validation call: the chain node
(`GetChainHead`; signature verification through
`providerutils.VerifyProposal`; `DealProviderCollateralBounds`;
`GetBalance`, of which only the `Available` field is read; `GetDataCap`,
`none` modelling a nil `*DataCap`), the provider's configured address and
ask, the external piece-size validator (`abi.PaddedPieceSize.Validate`,
returning its error message if any) and the chain-parameterised duration
bounds (`market.DealDurationBounds`). An `Except.error` carries the error
message of a failed node call. -/
structure ProviderEnv where
  chainHead : Except String (Nat × Int)
  sigOk : Bool
  address : Nat
  pieceSizeErr : Nat → Option String
  durationBounds : Nat → Int × Int
  collateralBounds : Nat → Bool → Except String (Int × Int)
  ask : StorageAsk
  balanceAvailable : Nat → Except String Int
  dataCap : Nat → Except String (Option Int)

/-- The event triggered by `ValidateDealProposal`:
`ProviderEventDealDeciding`, or `ProviderEventDealRejected` with the
failure message. -/
inductive ValidationResult where
  | deciding
  | rejected (msg : String)
  deriving DecidableEq, Repr

/-- `ValidateDealProposal` (provider_states.go:61-170), as the event it
triggers. `big.Div` by the GiB constant `1 <<< 30` is Euclidean
(`Int.ediv`); the ordered short-circuiting checks are the nested
conditionals of the source. -/
def validateDealProposal (env : ProviderEnv) (proposal : DealProposal) : ValidationResult :=
  match env.chainHead with
  | .error e => .rejected ("node error getting most recent state id: " ++ e)
  | .ok (_tok, curEpoch) =>
    if ¬ env.sigOk then
      .rejected "verifying StorageDealProposal: could not verify signature"
    else if proposal.Provider ≠ env.address then
      .rejected "incorrect provider for deal"
    else if proposal.Label.length > DealMaxLabelSize then
      .rejected ("deal label can be at most " ++ toString DealMaxLabelSize ++ " bytes, is " ++ toString proposal.Label.length)
    else
      match env.pieceSizeErr proposal.PieceSize with
      | some e => .rejected ("proposal piece size is invalid: " ++ e)
      | none =>
        if ¬ proposal.PieceCID.defined then
          .rejected "proposal PieceCID undefined"
        else if proposal.PieceCID.pfx ≠ pieceCidTag then
          .rejected "proposal PieceCID had wrong prefix"
        else if proposal.EndEpoch ≤ proposal.StartEpoch then
          .rejected "proposal end before proposal start"
        else if curEpoch > proposal.StartEpoch then
          .rejected "deal start epoch has already elapsed"
        else if proposal.Duration < (env.durationBounds proposal.PieceSize).1 ∨ proposal.Duration > (env.durationBounds proposal.PieceSize).2 then
          .rejected ("deal duration out of bounds (min, max, provided): " ++ toString (env.durationBounds proposal.PieceSize).1 ++ ", " ++ toString (env.durationBounds proposal.PieceSize).2 ++ ", " ++ toString proposal.Duration)
        else
          match env.collateralBounds proposal.PieceSize proposal.VerifiedDeal with
          | .error e => .rejected ("node error getting collateral bounds: " ++ e)
          | .ok (pcMin, pcMax) =>
            if proposal.ProviderCollateral < pcMin then
              .rejected ("proposed provider collateral below minimum: " ++ toString proposal.ProviderCollateral ++ " < " ++ toString pcMin)
            else if proposal.ProviderCollateral > pcMax then
              .rejected ("proposed provider collateral above maximum: " ++ toString proposal.ProviderCollateral ++ " > " ++ toString pcMax)
            else if proposal.StoragePricePerEpoch < ((if proposal.VerifiedDeal then env.ask.VerifiedPrice else env.ask.Price) * (proposal.PieceSize : Int)).ediv 1073741824 then
              .rejected ("storage price per epoch less than asking price: " ++ toString proposal.StoragePricePerEpoch ++ " < " ++ toString (((if proposal.VerifiedDeal then env.ask.VerifiedPrice else env.ask.Price) * (proposal.PieceSize : Int)).ediv 1073741824))
            else if proposal.PieceSize < env.ask.MinPieceSize then
              .rejected ("piece size less than minimum required size: " ++ toString proposal.PieceSize ++ " < " ++ toString env.ask.MinPieceSize)
            else if proposal.PieceSize > env.ask.MaxPieceSize then
              .rejected ("piece size more than maximum allowed size: " ++ toString proposal.PieceSize ++ " > " ++ toString env.ask.MaxPieceSize)
            else
              match env.balanceAvailable proposal.Client with
              | .error e => .rejected ("node error getting client market balance failed: " ++ e)
              | .ok avail =>
                if avail < proposal.ClientBalanceRequirement then
                  .rejected ("clientMarketBalance.Available too small: " ++ toString avail ++ " < " ++ toString proposal.ClientBalanceRequirement)
                else if proposal.VerifiedDeal then
                  match env.dataCap proposal.Client with
                  | .error e => .rejected ("node error fetching verified data cap: " ++ e)
                  | .ok none => .rejected "node error fetching verified data cap: data cap missing -- client not verified"
                  | .ok (some dc) =>
                    if dc < (proposal.PieceSize : Int) then
                      .rejected "verified deal DataCap too small for proposed piece size"
                    else .deciding
                else .deciding

/-- First failure of an ordered list of checks (`none` = check passed,
`some msg` = check failed with that message). -/
def firstFailure : List (Option String) → Option String
  | [] => none
  | some m :: _ => some m
  | none :: rest => firstFailure rest

/-- Modelled from the spec: the section 4.5 reference validation as the
ordered list of its 14 checks, each entry `some msg` exactly when the
check fails. Check 6 is the spec's words — "PieceCID defined and has
expected prefix else `proposal PieceCID had wrong prefix`" — and check 8
is the spec's `StartEpoch > curEpoch` requirement. -/
def specChecks (env : ProviderEnv) (proposal : DealProposal) : List (Option String) :=
  match env.chainHead with
  | .error e => [some ("node error getting most recent state id: " ++ e)]
  | .ok (_tok, curEpoch) =>
    [ none,
      (if ¬ env.sigOk then some "verifying StorageDealProposal: could not verify signature" else none),
      (if proposal.Provider ≠ env.address then some "incorrect provider for deal" else none),
      (if proposal.Label.length > DealMaxLabelSize then some ("deal label can be at most " ++ toString DealMaxLabelSize ++ " bytes, is " ++ toString proposal.Label.length) else none),
      (match env.pieceSizeErr proposal.PieceSize with
       | some e => some ("proposal piece size is invalid: " ++ e)
       | none => none),
      (if proposal.PieceCID.defined ∧ proposal.PieceCID.pfx = pieceCidTag then none
       else some "proposal PieceCID had wrong prefix"),
      (if proposal.EndEpoch ≤ proposal.StartEpoch then some "proposal end before proposal start" else none),
      (if proposal.StartEpoch > curEpoch then none else some "deal start epoch has already elapsed"),
      (if proposal.Duration < (env.durationBounds proposal.PieceSize).1 ∨ proposal.Duration > (env.durationBounds proposal.PieceSize).2 then some ("deal duration out of bounds (min, max, provided): " ++ toString (env.durationBounds proposal.PieceSize).1 ++ ", " ++ toString (env.durationBounds proposal.PieceSize).2 ++ ", " ++ toString proposal.Duration) else none),
      (match env.collateralBounds proposal.PieceSize proposal.VerifiedDeal with
       | .error e => some ("node error getting collateral bounds: " ++ e)
       | .ok (pcMin, pcMax) =>
         if proposal.ProviderCollateral < pcMin then
           some ("proposed provider collateral below minimum: " ++ toString proposal.ProviderCollateral ++ " < " ++ toString pcMin)
         else if proposal.ProviderCollateral > pcMax then
           some ("proposed provider collateral above maximum: " ++ toString proposal.ProviderCollateral ++ " > " ++ toString pcMax)
         else none),
      (if proposal.StoragePricePerEpoch < ((if proposal.VerifiedDeal then env.ask.VerifiedPrice else env.ask.Price) * (proposal.PieceSize : Int)).ediv 1073741824 then
         some ("storage price per epoch less than asking price: " ++ toString proposal.StoragePricePerEpoch ++ " < " ++ toString (((if proposal.VerifiedDeal then env.ask.VerifiedPrice else env.ask.Price) * (proposal.PieceSize : Int)).ediv 1073741824))
       else none),
      (if proposal.PieceSize < env.ask.MinPieceSize then
         some ("piece size less than minimum required size: " ++ toString proposal.PieceSize ++ " < " ++ toString env.ask.MinPieceSize)
       else if proposal.PieceSize > env.ask.MaxPieceSize then
         some ("piece size more than maximum allowed size: " ++ toString proposal.PieceSize ++ " > " ++ toString env.ask.MaxPieceSize)
       else none),
      (match env.balanceAvailable proposal.Client with
       | .error e => some ("node error getting client market balance failed: " ++ e)
       | .ok avail =>
         if avail < proposal.ClientBalanceRequirement then
           some ("clientMarketBalance.Available too small: " ++ toString avail ++ " < " ++ toString proposal.ClientBalanceRequirement)
         else none),
      (if proposal.VerifiedDeal then
         match env.dataCap proposal.Client with
         | .error e => some ("node error fetching verified data cap: " ++ e)
         | .ok none => some "node error fetching verified data cap: data cap missing -- client not verified"
         | .ok (some dc) =>
           if dc < (proposal.PieceSize : Int) then
             some "verified deal DataCap too small for proposed piece size"
           else none
       else none) ]

/-- Modelled from the spec: the section 4.5 reference validation — reject
with the first failing check's message, decide otherwise. -/
def specValidateDealProposal (env : ProviderEnv) (proposal : DealProposal) : ValidationResult :=
  match firstFailure (specChecks env proposal) with
  | some m => .rejected m
  | none => .deciding

/-- The section 4.5 reference validation amended where the code diverges
from the spec's words: check 6 rejects an undefined PieceCID with
`proposal PieceCID undefined` (only a defined CID with a different prefix
gets `proposal PieceCID had wrong prefix`), and check 8 rejects exactly
when `StartEpoch < curEpoch`, so the boundary `StartEpoch = curEpoch`
is admitted. -/
def specChecksAmended (env : ProviderEnv) (proposal : DealProposal) : List (Option String) :=
  match env.chainHead with
  | .error e => [some ("node error getting most recent state id: " ++ e)]
  | .ok (_tok, curEpoch) =>
    [ none,
      (if ¬ env.sigOk then some "verifying StorageDealProposal: could not verify signature" else none),
      (if proposal.Provider ≠ env.address then some "incorrect provider for deal" else none),
      (if proposal.Label.length > DealMaxLabelSize then some ("deal label can be at most " ++ toString DealMaxLabelSize ++ " bytes, is " ++ toString proposal.Label.length) else none),
      (match env.pieceSizeErr proposal.PieceSize with
       | some e => some ("proposal piece size is invalid: " ++ e)
       | none => none),
      (if ¬ proposal.PieceCID.defined then some "proposal PieceCID undefined"
       else if proposal.PieceCID.pfx ≠ pieceCidTag then some "proposal PieceCID had wrong prefix"
       else none),
      (if proposal.EndEpoch ≤ proposal.StartEpoch then some "proposal end before proposal start" else none),
      (if curEpoch > proposal.StartEpoch then some "deal start epoch has already elapsed" else none),
      (if proposal.Duration < (env.durationBounds proposal.PieceSize).1 ∨ proposal.Duration > (env.durationBounds proposal.PieceSize).2 then some ("deal duration out of bounds (min, max, provided): " ++ toString (env.durationBounds proposal.PieceSize).1 ++ ", " ++ toString (env.durationBounds proposal.PieceSize).2 ++ ", " ++ toString proposal.Duration) else none),
      (match env.collateralBounds proposal.PieceSize proposal.VerifiedDeal with
       | .error e => some ("node error getting collateral bounds: " ++ e)
       | .ok (pcMin, pcMax) =>
         if proposal.ProviderCollateral < pcMin then
           some ("proposed provider collateral below minimum: " ++ toString proposal.ProviderCollateral ++ " < " ++ toString pcMin)
         else if proposal.ProviderCollateral > pcMax then
           some ("proposed provider collateral above maximum: " ++ toString proposal.ProviderCollateral ++ " > " ++ toString pcMax)
         else none),
      (if proposal.StoragePricePerEpoch < ((if proposal.VerifiedDeal then env.ask.VerifiedPrice else env.ask.Price) * (proposal.PieceSize : Int)).ediv 1073741824 then
         some ("storage price per epoch less than asking price: " ++ toString proposal.StoragePricePerEpoch ++ " < " ++ toString (((if proposal.VerifiedDeal then env.ask.VerifiedPrice else env.ask.Price) * (proposal.PieceSize : Int)).ediv 1073741824))
       else none),
      (if proposal.PieceSize < env.ask.MinPieceSize then
         some ("piece size less than minimum required size: " ++ toString proposal.PieceSize ++ " < " ++ toString env.ask.MinPieceSize)
       else if proposal.PieceSize > env.ask.MaxPieceSize then
         some ("piece size more than maximum allowed size: " ++ toString proposal.PieceSize ++ " > " ++ toString env.ask.MaxPieceSize)
       else none),
      (match env.balanceAvailable proposal.Client with
       | .error e => some ("node error getting client market balance failed: " ++ e)
       | .ok avail =>
         if avail < proposal.ClientBalanceRequirement then
           some ("clientMarketBalance.Available too small: " ++ toString avail ++ " < " ++ toString proposal.ClientBalanceRequirement)
         else none),
      (if proposal.VerifiedDeal then
         match env.dataCap proposal.Client with
         | .error e => some ("node error fetching verified data cap: " ++ e)
         | .ok none => some "node error fetching verified data cap: data cap missing -- client not verified"
         | .ok (some dc) =>
           if dc < (proposal.PieceSize : Int) then
             some "verified deal DataCap too small for proposed piece size"
           else none
       else none) ]

/-- The amended first-failure reference validation. -/
def specValidateDealProposalAmended (env : ProviderEnv) (proposal : DealProposal) : ValidationResult :=
  match firstFailure (specChecksAmended env proposal) with
  | some m => .rejected m
  | none => .deciding

set_option maxHeartbeats 1600000 in
/-- C2 amended: `ValidateDealProposal` equals the spec's ordered
short-circuit reference validation once checks 6 and 8 are amended to the
code's behaviour (undefined PieceCID gets its own message; the start-epoch
check admits the boundary `StartEpoch = curEpoch`): for every proposal and
environment it triggers `ProviderEventDealDeciding` exactly when all
checks pass and otherwise `ProviderEventDealRejected` with the first
failing check's message. -/
theorem validate_matches_amended_spec (env : ProviderEnv) (p : DealProposal) :
    validateDealProposal env p = specValidateDealProposalAmended env p := by
  unfold validateDealProposal specValidateDealProposalAmended specChecksAmended
  cases env.chainHead with
  | error e => rfl
  | ok pr =>
    obtain ⟨tok, cur⟩ := pr
    dsimp only
    by_cases hsig : env.sigOk = true
    case neg => simp only [if_pos hsig, firstFailure]
    simp only [if_neg (not_not_intro hsig)]
    by_cases haddr : p.Provider = env.address
    case neg => simp only [if_pos haddr, firstFailure]
    simp only [if_neg (not_not_intro haddr)]
    by_cases hlab : p.Label.length > DealMaxLabelSize
    case pos => simp only [if_pos hlab, firstFailure]
    simp only [if_neg hlab]
    cases hps : env.pieceSizeErr p.PieceSize
    swap
    · simp only [firstFailure]
    by_cases hdef : p.PieceCID.defined = true
    case neg => simp only [if_pos hdef, firstFailure]
    simp only [if_neg (not_not_intro hdef)]
    by_cases hpfx : p.PieceCID.pfx = pieceCidTag
    case neg => simp only [if_pos hpfx, firstFailure]
    simp only [if_neg (not_not_intro hpfx)]
    by_cases hend : p.EndEpoch ≤ p.StartEpoch
    case pos => simp only [if_pos hend, firstFailure]
    simp only [if_neg hend]
    by_cases hcur : cur > p.StartEpoch
    case pos => simp only [if_pos hcur, firstFailure]
    simp only [if_neg hcur]
    by_cases hdur : p.Duration < (env.durationBounds p.PieceSize).1 ∨ p.Duration > (env.durationBounds p.PieceSize).2
    case pos => simp only [if_pos hdur, firstFailure]
    simp only [if_neg hdur]
    cases hcb : env.collateralBounds p.PieceSize p.VerifiedDeal
    · simp only [firstFailure]
    rename_i v
    obtain ⟨mn, mx⟩ := v
    by_cases hmn : p.ProviderCollateral < mn
    case pos => simp only [if_pos hmn, firstFailure]
    simp only [if_neg hmn]
    by_cases hmx : p.ProviderCollateral > mx
    case pos => simp only [if_pos hmx, firstFailure]
    simp only [if_neg hmx]
    by_cases hpr : p.StoragePricePerEpoch < ((if p.VerifiedDeal = true then env.ask.VerifiedPrice else env.ask.Price) * (p.PieceSize : Int)).ediv 1073741824
    case pos => simp only [if_pos hpr, firstFailure]
    simp only [if_neg hpr]
    by_cases hszmin : p.PieceSize < env.ask.MinPieceSize
    case pos => simp only [if_pos hszmin, firstFailure]
    simp only [if_neg hszmin]
    by_cases hszmax : p.PieceSize > env.ask.MaxPieceSize
    case pos => simp only [if_pos hszmax, firstFailure]
    simp only [if_neg hszmax]
    cases hbal : env.balanceAvailable p.Client
    · simp only [firstFailure]
    rename_i avail
    by_cases hav : avail < p.ClientBalanceRequirement
    case pos => simp only [if_pos hav, firstFailure]
    simp only [if_neg hav]
    by_cases hvd : p.VerifiedDeal = true
    case neg => simp only [if_neg hvd, firstFailure]
    simp only [if_pos hvd]
    cases hdc : env.dataCap p.Client
    · simp only [firstFailure]
    rename_i v
    cases v with
    | none => simp only [firstFailure]
    | some dc =>
      by_cases hdcs : dc < (p.PieceSize : Int)
      · simp only [if_pos hdcs, firstFailure]
      · simp only [if_neg hdcs, firstFailure]

/-- A validation environment under which every check can pass: chain head
at epoch 100, signature valid, provider address 7, permissive bounds. -/
def cexEnv : ProviderEnv where
  chainHead := .ok (0, 100)
  sigOk := true
  address := 7
  pieceSizeErr := fun _ => none
  durationBounds := fun _ => (180, 1000000)
  collateralBounds := fun _ _ => .ok (0, 1000000000)
  ask := { Price := 0, VerifiedPrice := 0, MinPieceSize := 128, MaxPieceSize := 1099511627776 }
  balanceAvailable := fun _ => .ok 1000000000000000000
  dataCap := fun _ => .ok (some 1099511627776)

/-- A proposal passing every check of `cexEnv` except that its `PieceCID`
is undefined. -/
def undefCidProposal : DealProposal where
  PieceCID := { defined := false, pfx := pieceCidTag }
  PieceSize := 1048576
  VerifiedDeal := false
  Client := 1
  Provider := 7
  Label := []
  StartEpoch := 200
  EndEpoch := 600
  StoragePricePerEpoch := 0
  ProviderCollateral := 0
  ClientCollateral := 0

/-- A proposal passing every check of `cexEnv` whose `StartEpoch` equals
the chain epoch (100) at admission. -/
def boundaryEpochProposal : DealProposal :=
  { undefCidProposal with
    PieceCID := { defined := true, pfx := pieceCidTag }
    StartEpoch := 100
    EndEpoch := 500 }

/-- C2 counterexample: `ValidateDealProposal` is not equal to the spec's
literal reference validation. For an undefined PieceCID the code rejects
with `proposal PieceCID undefined` while the spec's check 6 message is
`proposal PieceCID had wrong prefix`; and at the boundary
`StartEpoch = curEpoch` the code admits the proposal while the spec's
check 8 (`StartEpoch > curEpoch`) rejects it. -/
theorem validate_spec_divergence_counterexample :
    (validateDealProposal cexEnv undefCidProposal = .rejected "proposal PieceCID undefined" ∧
     specValidateDealProposal cexEnv undefCidProposal = .rejected "proposal PieceCID had wrong prefix") ∧
    (validateDealProposal cexEnv boundaryEpochProposal = .deciding ∧
     specValidateDealProposal cexEnv boundaryEpochProposal = .rejected "deal start epoch has already elapsed") := by
  refine ⟨⟨?_, ?_⟩, ?_, ?_⟩ <;> decide

/-- C3 counterexample: a proposal whose `StartEpoch` equals the current
chain epoch at admission (the boundary case of the claim) is not rejected
— `ValidateDealProposal` admits it and triggers
`ProviderEventDealDeciding`. -/
theorem startEpoch_boundary_admitted_counterexample :
    cexEnv.chainHead = .ok (0, 100) ∧ boundaryEpochProposal.StartEpoch = 100 ∧
    validateDealProposal cexEnv boundaryEpochProposal = .deciding :=
  ⟨rfl, rfl, by decide⟩

/-- C3 amended: in the `Validating` admission policy, for a proposal
passing all other checks, the rejection `deal start epoch has already
elapsed` happens exactly when `StartEpoch < curEpoch` — strictly — and the
proposal is admitted (DealDeciding) exactly when `curEpoch ≤ StartEpoch`,
so the boundary `StartEpoch = curEpoch` is admitted. -/
theorem startEpoch_check (env : ProviderEnv) (p : DealProposal) (tok : Nat) (cur pcMin pcMax avail : Int)
    (h1 : env.chainHead = .ok (tok, cur))
    (h2 : env.sigOk = true)
    (h3 : p.Provider = env.address)
    (h4 : p.Label.length ≤ DealMaxLabelSize)
    (h5 : env.pieceSizeErr p.PieceSize = none)
    (h6 : p.PieceCID.defined = true)
    (h7 : p.PieceCID.pfx = pieceCidTag)
    (h8 : p.StartEpoch < p.EndEpoch)
    (h9 : (env.durationBounds p.PieceSize).1 ≤ p.Duration)
    (h9b : p.Duration ≤ (env.durationBounds p.PieceSize).2)
    (h10 : env.collateralBounds p.PieceSize p.VerifiedDeal = .ok (pcMin, pcMax))
    (h10a : pcMin ≤ p.ProviderCollateral)
    (h10b : p.ProviderCollateral ≤ pcMax)
    (h11 : (env.ask.Price * (p.PieceSize : Int)).ediv 1073741824 ≤ p.StoragePricePerEpoch)
    (h12a : env.ask.MinPieceSize ≤ p.PieceSize)
    (h12b : p.PieceSize ≤ env.ask.MaxPieceSize)
    (h13 : env.balanceAvailable p.Client = .ok avail)
    (h13b : p.ClientBalanceRequirement ≤ avail)
    (h14 : p.VerifiedDeal = false) :
    (validateDealProposal env p = .rejected "deal start epoch has already elapsed" ↔ p.StartEpoch < cur) ∧
    (validateDealProposal env p = .deciding ↔ cur ≤ p.StartEpoch) := by
  have hc4 : ¬ (p.Label.length > DealMaxLabelSize) := by omega
  have hc8 : ¬ (p.EndEpoch ≤ p.StartEpoch) := by omega
  have hc9 : ¬ (p.Duration < (env.durationBounds p.PieceSize).1 ∨ p.Duration > (env.durationBounds p.PieceSize).2) := by
    push_neg
    exact ⟨h9, h9b⟩
  have hc10a : ¬ (p.ProviderCollateral < pcMin) := not_lt.mpr h10a
  have hc10b : ¬ (p.ProviderCollateral > pcMax) := not_lt.mpr h10b
  have hc11 : ¬ (p.StoragePricePerEpoch < (env.ask.Price * (p.PieceSize : Int)).ediv 1073741824) := not_lt.mpr h11
  have hc12a : ¬ (p.PieceSize < env.ask.MinPieceSize) := not_lt.mpr h12a
  have hc12b : ¬ (p.PieceSize > env.ask.MaxPieceSize) := not_lt.mpr h12b
  have hc13 : ¬ (avail < p.ClientBalanceRequirement) := not_lt.mpr h13b
  have hc14 : ¬ (p.VerifiedDeal = true) := by simp [h14]
  unfold validateDealProposal
  rw [h1]
  simp only [h5, h10, h13, if_neg (not_not_intro h2), if_neg (not_not_intro h3),
    if_neg hc4, if_neg (not_not_intro h6), if_neg (not_not_intro h7), if_neg hc8,
    if_neg hc9, if_neg hc10a, if_neg hc10b, if_neg hc11, if_neg hc12a, if_neg hc12b,
    if_neg hc13, if_neg hc14]
  by_cases hcur : cur > p.StartEpoch
  · simp only [if_pos hcur]
    exact ⟨⟨fun _ => hcur, fun _ => trivial⟩,
           ⟨fun h' => ValidationResult.noConfusion h', fun h' => absurd hcur (by omega)⟩⟩
  · simp only [if_neg hcur]
    exact ⟨⟨fun h' => ValidationResult.noConfusion h', fun h' => absurd h' hcur⟩,
           ⟨fun _ => by omega, fun _ => trivial⟩⟩

/-- C3 witness: the amended start-epoch characterisation at the concrete
boundary input `StartEpoch = curEpoch = 100`: not rejected, admitted. -/
theorem startEpoch_check_witness :
    (validateDealProposal cexEnv boundaryEpochProposal = .rejected "deal start epoch has already elapsed" ↔ boundaryEpochProposal.StartEpoch < 100) ∧
    (validateDealProposal cexEnv boundaryEpochProposal = .deciding ↔ (100:Int) ≤ boundaryEpochProposal.StartEpoch) :=
  startEpoch_check cexEnv boundaryEpochProposal 0 100 0 1000000000 1000000000000000000
    rfl rfl rfl (by decide) rfl rfl rfl (by decide) (by decide) (by decide)
    rfl (by decide) (by decide) (by decide) (by decide) (by decide) rfl (by decide) rfl

/-! ## Storage provider: publish, funds release, failure (provider_states.go) -/

/-- `TagPriority = 100` (network/deal_stream.go:14): the connection-manager
priority at which deal peers are tagged. -/
def TagPriority : Nat := 100

/-- Calls a provider state handler makes on its environment and node. -/
inductive ECall where
  | tagPeer (client : Nat) (k : String) (priority : Nat)
  | untagPeer (client : Nat) (k : String)
  | releaseFunds (amt : Int)
  | deleteFile (p : String)
  | deleteStore (i : Nat)
  deriving DecidableEq, Repr

/-- `storagemarket.MinerDeal`: the runtime fields consulted by
`WaitForPublish`, `FailDeal` and `releaseReservedFunds`. `FundsReserved`
is a token amount whose Go nil and zero values are distinct
(`none` = nil). -/
structure MinerDeal where
  Client : Nat
  ProposalCid : Nat
  FundsReserved : Option Int
  PiecePath : String
  MetadataPath : String
  StoreID : Option Nat
  deriving DecidableEq, Repr

/-- `releaseReservedFunds` (provider_states.go:566-575): calls the node's
`ReleaseFunds` and triggers `ProviderEventFundsReleased` only when
`FundsReserved` is neither nil nor zero. The first component is the
amount of the `ReleaseFunds` call, if any. The effect of
`ProviderEventFundsReleased` on the record is modelled from the spec (the
provider event table is not under src/): the action subtracts the
released amount, so `FundsReserved` becomes zero. -/
def releaseReservedFunds (deal : MinerDeal) : Option Int × MinerDeal :=
  match deal.FundsReserved with
  | some v =>
      if v ≠ 0 then (some v, { deal with FundsReserved := some (v - v) })
      else (none, deal)
  | none => (none, deal)

/-- The events triggered by `WaitForPublish` and `FailDeal`. -/
inductive PEvent where
  | DealPublishError (msg : String)
  | DealPublished (dealID : Nat) (finalCid : Nat)
  | Failed
  deriving DecidableEq, Repr

/-- `market.PublishStorageDealsReturn` (specs-actors): the decoded return
of a `PublishStorageDeals` message. -/
structure PublishStorageDealsReturn where
  IDs : List Nat
  deriving DecidableEq, Repr

/-- The `WaitForPublish` receipt callback (provider_states.go:305-321):
`code` is the receipt exit code (`0` = `exitcode.Ok`), `decoded` the
CBOR-decoding of the return bytes (`Except.error` = unmarshal failure),
`errStr` a `WaitForMessage` error. On the success path it releases any
reserved funds and then triggers `ProviderEventDealPublished` with
`retval.IDs[0]` — an index access with no defined result when `IDs` is
empty, modelled by `none`. -/
def waitForPublishCb (deal : MinerDeal) (code : Nat)
    (decoded : Except String PublishStorageDealsReturn)
    (finalCid : Nat) (errStr : Option String) : Option (PEvent × MinerDeal) :=
  match errStr with
  | some e => some (.DealPublishError ("PublishStorageDeals errored: " ++ e), deal)
  | none =>
    if code ≠ 0 then
      some (.DealPublishError ("PublishStorageDeals exit code: " ++ toString code), deal)
    else
      match decoded with
      | .error e => some (.DealPublishError ("PublishStorageDeals error unmarshalling result: " ++ e), deal)
      | .ok retval =>
        let rel := releaseReservedFunds deal
        match retval.IDs with
        | [] => none
        | id0 :: _ => some (.DealPublished id0 finalCid, rel.2)

/-- `FailDeal` (provider_states.go:538-564): untags the peer, deletes any
staged piece and metadata files and the per-deal store, releases any
still-reserved funds, and triggers `ProviderEventFailed`. Returned are
the environment calls in source order, the post-record, and the event. -/
def failDeal (deal : MinerDeal) : List ECall × MinerDeal × PEvent :=
  let rel := releaseReservedFunds deal
  ([ECall.untagPeer deal.Client (toString deal.ProposalCid)]
    ++ (if deal.PiecePath ≠ "" then [ECall.deleteFile deal.PiecePath] else [])
    ++ (if deal.MetadataPath ≠ "" then [ECall.deleteFile deal.MetadataPath] else [])
    ++ (match deal.StoreID with | some i => [ECall.deleteStore i] | none => [])
    ++ (match rel.1 with | some amt => [ECall.releaseFunds amt] | none => []),
   rel.2, .Failed)

/-- The peer-tag call of `ValidateDealProposal` (provider_states.go:62),
made on admission before any check: the client peer is tagged with the
proposal CID; the libp2p network implementation tags at `TagPriority`
(clientutils.go:301-302). -/
def validateDealCalls (deal : MinerDeal) : List ECall :=
  [ECall.tagPeer deal.Client (toString deal.ProposalCid) TagPriority]

/-- The peer-tag call of `WaitForDealCompletion`
(provider_states.go:487-489): the `Active` entry handler untags the
client peer before subscribing to expiry/slashing. -/
def waitForDealCompletionCalls (deal : MinerDeal) : List ECall :=
  [ECall.untagPeer deal.Client (toString deal.ProposalCid)]

/-- C7: reserved provider funds are released exactly once per deal.
`releaseReservedFunds` calls `ReleaseFunds` (and triggers
`ProviderEventFundsReleased`) iff `FundsReserved` is neither nil nor
zero; the post-record's `FundsReserved` is nil-or-zero, so a second
invocation releases nothing; the `WaitForPublish` success path (entry to
Staged) routes through `releaseReservedFunds`, and `FailDeal` (entry to
Error) leaves the same cleared `FundsReserved`. -/
theorem releaseReservedFunds_once (deal : MinerDeal) (id0 finalCid : Nat) (ids : List Nat) :
    ((releaseReservedFunds deal).1 ≠ none ↔
      (deal.FundsReserved ≠ none ∧ deal.FundsReserved ≠ some 0)) ∧
    ((releaseReservedFunds deal).2.FundsReserved = none ∨
      (releaseReservedFunds deal).2.FundsReserved = some 0) ∧
    (releaseReservedFunds (releaseReservedFunds deal).2).1 = none ∧
    waitForPublishCb deal 0 (.ok ⟨id0 :: ids⟩) finalCid none
      = some (.DealPublished id0 finalCid, (releaseReservedFunds deal).2) ∧
    (failDeal deal).2.1.FundsReserved = (releaseReservedFunds deal).2.FundsReserved := by
  unfold waitForPublishCb failDeal releaseReservedFunds
  rcases hfr : deal.FundsReserved with _ | v
  · simp [hfr]
  · by_cases hv : v = 0
    · subst hv
      simp [hfr]
    · simp [hfr, hv]

/-- C9: the `WaitForPublish` callback indexes `retval.IDs[0]` with no
emptiness check: it is defined for every receipt except exactly when the
message landed with exit code Ok and its return decoded to a value whose
IDs list is empty — there the index access has no defined result. -/
theorem waitForPublish_total_iff (deal : MinerDeal) (code : Nat)
    (decoded : Except String PublishStorageDealsReturn) (finalCid : Nat)
    (errStr : Option String) :
    waitForPublishCb deal code decoded finalCid errStr = none ↔
      (errStr = none ∧ code = 0 ∧ decoded = .ok ⟨[]⟩) := by
  unfold waitForPublishCb
  rcases errStr with _ | e
  · by_cases hc : code = 0
    · subst hc
      rcases decoded with e | retval
      · simp
      · rcases hids : retval.IDs with _ | ⟨id0, ids⟩
        · rcases retval with ⟨l⟩
          simp_all
        · rcases retval with ⟨l⟩
          simp_all
    · simp [hc]
  · simp

/-! ## Storage provider: state graph and peer-tag lifecycle -/

/-- Modelled from the spec: the storage provider deal states
(section 4.2; the provider transition table itself is not under src/). -/
inductive PState where
  | unknown
  | validating
  | acceptWait
  | waitingForData
  | transferring
  | verifyData
  | reserveProviderFunds
  | providerFunding
  | publish
  | publishing
  | staged
  | awaitingPreCommit
  | sealing
  | finalizing
  | active
  | expired
  | slashed
  | error
  | rejecting
  | failing
  deriving DecidableEq, Repr

/-- Modelled from the spec: the storage provider transition graph of
section 4.2. The forward edges follow the listed pipeline
(`Staged` may reach `Sealing` directly or through `AwaitingPreCommit`);
`Validating` and `AcceptWait` rejections go to `Rejecting`; fatal errors
from the working states route to `Failing`; `Active` terminates at
`Expired` or `Slashed` (its completion-failure event goes straight to
`Error`, not through `Failing`); `Rejecting → Failing → Error`.
`Expired`, `Slashed` and `Error` are terminal. -/
def pstep : PState → PState → Bool
  | .unknown, .validating => true
  | .validating, .acceptWait => true
  | .validating, .rejecting => true
  | .acceptWait, .waitingForData => true
  | .acceptWait, .rejecting => true
  | .waitingForData, .transferring => true
  | .waitingForData, .failing => true
  | .transferring, .verifyData => true
  | .transferring, .failing => true
  | .verifyData, .reserveProviderFunds => true
  | .verifyData, .failing => true
  | .reserveProviderFunds, .providerFunding => true
  | .reserveProviderFunds, .publish => true
  | .reserveProviderFunds, .failing => true
  | .providerFunding, .publish => true
  | .providerFunding, .failing => true
  | .publish, .publishing => true
  | .publish, .failing => true
  | .publishing, .staged => true
  | .publishing, .failing => true
  | .staged, .awaitingPreCommit => true
  | .staged, .sealing => true
  | .staged, .failing => true
  | .awaitingPreCommit, .sealing => true
  | .awaitingPreCommit, .failing => true
  | .sealing, .finalizing => true
  | .sealing, .failing => true
  | .finalizing, .active => true
  | .finalizing, .failing => true
  | .active, .expired => true
  | .active, .slashed => true
  | .active, .error => true
  | .rejecting, .failing => true
  | .failing, .error => true
  | _, _ => false

/-- States whose entry handler calls `TagPeer`: only `Validating`
(`ValidateDealProposal`, provider_states.go:62). -/
def tagsPeer : PState → Nat
  | .validating => 1
  | _ => 0

/-- States whose entry handler calls `UntagPeer`: `Active`
(`WaitForDealCompletion`, provider_states.go:489) and `Failing`
(`FailDeal`, provider_states.go:541). -/
def untagsPeer : PState → Nat
  | .active => 1
  | .failing => 1
  | _ => 0

/-- Terminal provider states. -/
def isTerminal : PState → Bool
  | .expired | .slashed | .error => true
  | _ => false

/-- Untag calls remaining on any complete run from a state: one from
every non-terminal state, none from a terminal state. -/
def untagsRemaining (s : PState) : Nat := if isTerminal s then 0 else 1

/-- Tag calls remaining on any complete run from a state. -/
def tagsRemaining : PState → Nat
  | .unknown => 1
  | .validating => 1
  | _ => 0

/-- A run of the provider machine: consecutive states are transitions. -/
def pathOk : List PState → Bool
  | [] => true
  | [_] => true
  | a :: b :: rest => pstep a b && pathOk (b :: rest)

/-- Whether a run ends in a terminal state. -/
def endsTerminal : List PState → Bool
  | [] => false
  | [s] => isTerminal s
  | _ :: rest => endsTerminal rest

/-- Total `UntagPeer` calls made by the entry handlers along a run. -/
def untagCount (l : List PState) : Nat := (l.map untagsPeer).sum

/-- Total `TagPeer` calls made by the entry handlers along a run. -/
def tagCount (l : List PState) : Nat := (l.map tagsPeer).sum

theorem pstep_counts (s t : PState) (h : pstep s t = true) :
    untagsRemaining s = untagsPeer s + untagsRemaining t ∧
    tagsRemaining s = tagsPeer s + tagsRemaining t := by
  revert h
  cases s <;> cases t <;> decide

theorem path_counts : ∀ (l : List PState) (s : PState),
    pathOk (s :: l) = true → endsTerminal (s :: l) = true →
    untagCount (s :: l) = untagsRemaining s ∧ tagCount (s :: l) = tagsRemaining s
  | [], s, _, hterm => by
      cases s <;>
        simp_all [untagCount, tagCount, untagsPeer, tagsPeer, untagsRemaining,
          tagsRemaining, isTerminal, endsTerminal]
  | t :: rest, s, h, hterm => by
      have h1 : pstep s t = true ∧ pathOk (t :: rest) = true := by
        simpa [pathOk, Bool.and_eq_true] using h
      have hterm' : endsTerminal (t :: rest) = true := by
        simpa [endsTerminal] using hterm
      obtain ⟨hu, ht⟩ := path_counts rest t h1.2 hterm'
      have he := pstep_counts s t h1.1
      refine ⟨?_, ?_⟩
      · have hc : untagCount (s :: t :: rest) = untagsPeer s + untagCount (t :: rest) := by
          simp [untagCount]
        rw [hc, hu, he.1]
      · have hc : tagCount (s :: t :: rest) = tagsPeer s + tagCount (t :: rest) := by
          simp [tagCount]
        rw [hc, ht, he.2]

/-- C8: over every complete provider deal lifecycle — a transition run
from `Unknown` to a terminal state — the entry handlers tag the client
peer exactly once and untag it exactly once; the tag is issued on
admission by `ValidateDealProposal` (tagging the client peer with the
proposal CID at priority 100) and the single untag occurs in
`WaitForDealCompletion` (at `Active`) or in `FailDeal` (at `Failing`); no
run untags the same deal's peer twice. -/
theorem peer_tag_lifecycle (deal : MinerDeal) (l : List PState)
    (h : pathOk (.unknown :: l) = true)
    (hterm : endsTerminal (.unknown :: l) = true) :
    tagCount (.unknown :: l) = 1 ∧ untagCount (.unknown :: l) = 1 ∧
    validateDealCalls deal
      = [ECall.tagPeer deal.Client (toString deal.ProposalCid) 100] ∧
    waitForDealCompletionCalls deal
      = [ECall.untagPeer deal.Client (toString deal.ProposalCid)] ∧
    (failDeal deal).1.count (ECall.untagPeer deal.Client (toString deal.ProposalCid)) = 1 := by
  obtain ⟨hu, ht⟩ := path_counts l .unknown h hterm
  refine ⟨ht, hu, rfl, rfl, ?_⟩
  unfold failDeal
  simp only [List.count_append, List.count_cons, List.count_nil]
  rcases deal.FundsReserved with _ | v <;>
  rcases deal.StoreID with _ | i <;>
  by_cases h1 : deal.PiecePath = "" <;>
  by_cases h2 : deal.MetadataPath = "" <;>
  simp_all [releaseReservedFunds, List.count_append, List.count_cons] <;>
  split <;> simp

/-- A representative provider deal record. -/
def sampleMinerDeal : MinerDeal where
  Client := 3
  ProposalCid := 12
  FundsReserved := some 700
  PiecePath := "piece"
  MetadataPath := ""
  StoreID := some 4

/-- C8 witness: the peer-tag lifecycle theorem at the concrete happy-path
run Unknown → Validating → … → Active → Expired. -/
theorem peer_tag_lifecycle_witness :
    tagCount [.unknown, .validating, .acceptWait, .waitingForData, .transferring,
      .verifyData, .reserveProviderFunds, .publish, .publishing, .staged,
      .awaitingPreCommit, .sealing, .finalizing, .active, .expired] = 1 ∧
    untagCount [.unknown, .validating, .acceptWait, .waitingForData, .transferring,
      .verifyData, .reserveProviderFunds, .publish, .publishing, .staged,
      .awaitingPreCommit, .sealing, .finalizing, .active, .expired] = 1 ∧
    validateDealCalls sampleMinerDeal
      = [ECall.tagPeer sampleMinerDeal.Client (toString sampleMinerDeal.ProposalCid) 100] ∧
    waitForDealCompletionCalls sampleMinerDeal
      = [ECall.untagPeer sampleMinerDeal.Client (toString sampleMinerDeal.ProposalCid)] ∧
    (failDeal sampleMinerDeal).1.count
      (ECall.untagPeer sampleMinerDeal.Client (toString sampleMinerDeal.ProposalCid)) = 1 :=
  peer_tag_lifecycle sampleMinerDeal
    [.validating, .acceptWait, .waitingForData, .transferring, .verifyData,
     .reserveProviderFunds, .publish, .publishing, .staged, .awaitingPreCommit,
     .sealing, .finalizing, .active, .expired] (by decide) (by decide)

end FilMarkets
